import Mathlib

/-!
Verification development for the EOD PDF dashboard repository
(`src/app.py`, with the earlier variant `src/app0.py`).

The extraction engine of `app.py` is embedded shallowly:

* raw report text is a `List Char` (Python `str`);
* Python `float` values are modelled exactly as rationals (`ℚ`);
* the concrete regular expressions of the source are embedded as
  executable scanners with Python `re` semantics (leftmost search,
  greedy / lazy character classes, word boundaries, non-overlapping
  `findall`);
* Python exceptions (`float()` conversion failures, attribute errors)
  are modelled with `Except PyErr`.

All definitions are executable so that closed statements evaluate by
`decide` / `rfl`.
-/

/-- Python exceptions that the embedded fragments of `app.py` can raise:
`valueError tok` models `float(tok)` (or `astype(float)`) failing on a
malformed numeric token, `attributeError` models calling `.get` on a
non-dict JSON value. -/
inductive PyErr where
  | valueError (tok : String)
  | attributeError
  deriving DecidableEq, Repr

instance {ε α : Type} [DecidableEq ε] [DecidableEq α] : DecidableEq (Except ε α) := by
  intro a b
  cases a <;> cases b
  case error.error e f =>
    exact if h : e = f then .isTrue (by rw [h]) else .isFalse (by intro c; cases c; exact h rfl)
  case ok.ok x y =>
    exact if h : x = y then .isTrue (by rw [h]) else .isFalse (by intro c; cases c; exact h rfl)
  all_goals exact .isFalse (by intro c; cases c)

/-- Python's `\s` class (ASCII range, which is all the report texts use). -/
def pySpace (c : Char) : Bool :=
  c = ' ' || c = '\t' || c = '\n' || c = '\r' || c = '\x0b' || c = '\x0c'

/-- Python's `\w` class restricted to ASCII: letters, digits, underscore. -/
def isWordChar (c : Char) : Bool :=
  c.isAlpha || c.isDigit || c = '_'

/-- A `\b` just before a label that starts with a word character holds
exactly when the previous character is absent or not a word character. -/
def boundaryOk : Option Char → Bool
  | none => true
  | some p => !isWordChar p

/-- The character class `[\d\.]` used for numeric tokens in every pattern. -/
def digitDot (c : Char) : Bool :=
  c.isDigit || c = '.'

/-- Value of a (possibly empty) list of decimal digit characters. -/
def digitsToNat (s : List Char) : ℕ :=
  s.foldl (fun acc c => 10 * acc + (c.toNat - '0'.toNat)) 0

/-- Python `float(s)` for a token drawn from the class `[\d\.]+`:
it succeeds exactly when the token has at least one digit and at most
one dot, and then denotes `intpart.fracpart` (modelled exactly in `ℚ`). -/
def pyFloat (s : List Char) : Option ℚ :=
  if s.all digitDot && s.any (·.isDigit) && s.count '.' ≤ 1 then
    let ip := s.takeWhile (·.isDigit)
    let rest := s.dropWhile (·.isDigit)
    let fp := match rest with
      | '.' :: f => f
      | _ => []
    some (mkRat (digitsToNat (ip ++ fp)) ((10 : ℕ) ^ fp.length))
  else none

/-- `float(tok)` as the Python runtime performs it: a malformed token
raises `ValueError` carrying (only) the offending token. -/
def pyFloatE (s : List Char) : Except PyErr ℚ :=
  match pyFloat s with
  | some q => .ok q
  | none => .error (.valueError (String.mk s))

/-- Match a literal string at the head of the text, returning the rest. -/
def dropLit : List Char → List Char → Option (List Char)
  | [], t => some t
  | _ :: _, [] => none
  | a :: as1, b :: bs => if a = b then dropLit as1 bs else none

/-- Boolean "is this pattern a prefix of the text". -/
def listIsPre : List Char → List Char → Bool
  | [], _ => true
  | _ :: _, [] => false
  | a :: as1, b :: bs => a = b && listIsPre as1 bs

/-- Number of positions of `t` at which `pat` occurs as a substring. -/
def countOccur (pat : List Char) : List Char → ℕ
  | [] => if listIsPre pat [] then 1 else 0
  | c :: cs => (if listIsPre pat (c :: cs) then 1 else 0) + countOccur pat cs

/-- Boolean "does `pat` occur anywhere in the text". -/
def occursB (pat : List Char) : List Char → Bool
  | [] => listIsPre pat []
  | c :: cs => listIsPre pat (c :: cs) || occursB pat cs

/-- Attempt the scalar pattern `<label>\s+([\d\.]+)` at the current
position: the literal label, then at least one whitespace, then the
greedy capture `([\d\.]+)` (the two classes are disjoint, so greedy
matching needs no backtracking here). Returns the captured token. -/
def matchScalarAt (label : List Char) (t : List Char) : Option (List Char) :=
  match dropLit label t with
  | none => none
  | some r1 =>
    match r1 with
    | [] => none
    | c :: _ =>
      if pySpace c then
        let tok := (r1.dropWhile pySpace).takeWhile digitDot
        if tok.isEmpty then none else some tok
      else none

/-- `re.search` for the scalar patterns of `parse_basic_metrics`: scan
positions left to right; `wb` requires the `\b` of `r"\bTotal\s+..."`,
which (as every label starts with a word character) holds exactly when
the previous character is absent or not a word character. -/
def searchScalarAux (label : List Char) (wb : Bool) (prev : Option Char) :
    List Char → Option (List Char)
  | [] => none
  | c :: cs =>
    match (if !wb || boundaryOk prev then matchScalarAt label (c :: cs) else none) with
    | some tok => some tok
    | none => searchScalarAux label wb (some c) cs

/-- `grab(pat, default="0")` from `app.py` (lines 30-32): take the first
match of the pattern in the text and convert the captured group with
`float`; with no match, convert the default `"0"`. -/
def grab (label : List Char) (wb : Bool) (t : List Char) : Except PyErr ℚ :=
  match searchScalarAux label wb none t with
  | some tok => pyFloatE tok
  | none => pyFloatE "0".toList

example : grab "Merchandise Sales".toList false "Merchandise Sales 123.45\nx".toList
    = .ok (mkRat 12345 100) := by decide
example : grab "Total".toList true "Tax Total 16.00\nTotal 216.00".toList
    = .ok (16 : ℚ) := by decide
example : grab "Total".toList true "SubTotal 5.00 Total 7.00".toList
    = .ok (7 : ℚ) := by decide
example : grab "Tax B".toList false "Tax A 10.00".toList = .ok 0 := by decide
example : grab "Merchandise Sales".toList false "Merchandise Sales 1.2.3".toList
    = .error (.valueError "1.2.3") := by decide

/-- The fixed six payment-method labels, in the alternation order of the
pattern `\b(Cash|AmEx|Visa|Master|Other|Discover):\s*([\d\.]+)` from
`app.py` line 42. -/
def payLabels : List String := ["Cash", "AmEx", "Visa", "Master", "Other", "Discover"]

/-- Try one alternative of the payment pattern at the current position:
the literal label, `:`, `\s*` (greedy, possibly empty), then the capture
`([\d\.]+)` (at least one character; the classes are disjoint so greedy
matching needs no backtracking). Returns the label, the captured amount
token, and the total number of characters consumed. -/
def matchPayLabel (l : String) (t : List Char) : Option (String × String × ℕ) :=
  match dropLit l.toList t with
  | none => none
  | some r1 =>
    match r1 with
    | ':' :: r2 =>
      let sp := r2.takeWhile pySpace
      let r3 := r2.dropWhile pySpace
      let tok := r3.takeWhile digitDot
      if tok.isEmpty then none
      else some (l, String.mk tok, l.toList.length + 1 + sp.length + tok.length)
    | _ => none

/-- Try the alternatives in pattern order (their first letters are
pairwise distinct, so at most one can match at a given position). -/
def tryPayLabels : List String → List Char → Option (String × String × ℕ)
  | [], _ => none
  | l :: ls, t =>
    match matchPayLabel l t with
    | some r => some r
    | none => tryPayLabels ls t

/-- One attempt of the full payment pattern (including the `\b`) at the
current position. -/
def matchPayAt (prev : Option Char) (t : List Char) : Option (String × String × ℕ) :=
  if boundaryOk prev then tryPayLabels payLabels t else none

/-- `re.findall` for the payment pattern: scan left to right, emit each
(label, amount) pair, and resume immediately after the matched text
(non-overlapping matches, as `findall` does). `skip` counts characters
of a previous match that still have to be stepped over; stepping keeps
`prev` (the character before the current position) correct for `\b`. -/
def findPaysAux : ℕ → Option Char → List Char → List (String × String)
  | _, _, [] => []
  | skip + 1, _, c :: cs => findPaysAux skip (some c) cs
  | 0, prev, c :: cs =>
    match matchPayAt prev (c :: cs) with
    | some (l, tok, consumed) => (l, tok) :: findPaysAux (consumed - 1) (some c) cs
    | none => findPaysAux 0 (some c) cs

/-- All payment-pattern matches of a text, in document order. -/
def findPays (t : List Char) : List (String × String) :=
  findPaysAux 0 none t

/-- Python dict assignment `d[k] = v`: replace the value in place when
the key is present, otherwise append the new binding (insertion order). -/
def pyDictSet {α : Type} (d : List (String × α)) (k : String) (v : α) : List (String × α) :=
  if d.any (fun p => p.1 = k) then
    d.map (fun p => if p.1 = k then (k, v) else p)
  else d ++ [(k, v)]

/-- Python `dict(pairs)`: insert the pairs left to right, so the last
value per key wins while the key keeps its first-insertion position. -/
def pyDictOf {α : Type} (pairs : List (String × α)) : List (String × α) :=
  pairs.foldl (fun d p => pyDictSet d p.1 p.2) []

/-- Generic assoc-list lookup with decidable string equality (Python
dict read). -/
def sLookup {α : Type} (d : List (String × α)) (k : String) : Option α :=
  match d with
  | [] => none
  | p :: rest => if p.1 = k then some p.2 else sLookup rest k

/-- The value of the last pair with key `k`, if any (what Python's
`dict(pairs)` binds `k` to). -/
def lastVal {α : Type} (k : String) (pairs : List (String × α)) : Option α :=
  pairs.foldl (fun acc p => if p.1 = k then some p.2 else acc) none

/-- A Python dict value mid-way through the payment loop: still the
captured string, or already converted to a float. -/
def PayVal : Type := String ⊕ ℚ

/-- The loop `for k in [...]: pays[k] = float(pays.get(k, 0))` from
`app.py` lines 43-44; `float` can raise on a malformed captured token. -/
def payLoop : List String → List (String × PayVal) → Except PyErr (List (String × PayVal))
  | [], d => .ok d
  | k :: ks, d =>
    match (match sLookup d k with
      | some (.inl s) => pyFloatE s.toList
      | some (.inr q) => .ok q
      | none => .ok 0) with
    | .error e => .error e
    | .ok q => payLoop ks (pyDictSet d k (.inr q))

/-- Keep the converted values. After the loop every key is converted:
the scan only ever produces keys from `payLabels`, each of which the
loop visits. -/
def payValuesToRat (d : List (String × PayVal)) : List (String × ℚ) :=
  d.filterMap (fun p => match p.2 with
    | .inr q => some (p.1, q)
    | .inl _ => none)

/-- Lines 42-44 of `app.py` as a function of the match list. -/
def payCompute (pairs : List (String × String)) : Except PyErr (List (String × ℚ)) :=
  match payLoop payLabels (pyDictOf (pairs.map (fun p => (p.1, Sum.inl p.2)))) with
  | .error e => .error e
  | .ok d => .ok (payValuesToRat d)

/-- The payment mapping `pays` built by `parse_basic_metrics`. -/
def pyPayments (t : List Char) : Except PyErr (List (String × ℚ)) :=
  payCompute (findPays t)

example : findPays "Cash: 50.00 Visa: 75.25".toList
    = [("Cash", "50.00"), ("Visa", "75.25")] := by decide
example : findPays "1Cash: 50.00".toList = [] := by decide
example : findPays "Cash: 10.00 x Cash: 20.00".toList
    = [("Cash", "10.00"), ("Cash", "20.00")] := by decide
example : pyPayments "Cash: 50.00 Visa: 75.25".toList
    = .ok [("Cash", 50), ("Visa", mkRat 7525 100), ("AmEx", 0), ("Master", 0),
           ("Other", 0), ("Discover", 0)] := by decide

/-- One element of the department pattern
`([A-Z0-9 \-&'\.]+?)\s+(\d+)\s+([\d\.]+)\s+(?:[\d\.]+\s+)?[\d\.]+`
(`app.py` line 47): a repeated character class (`lzy` lazy `+?` vs
greedy `+`; `acc` the characters it has consumed so far; `slot` the
capture-group number), or a greedy optional non-capturing group. -/
inductive RItem where
  | rcls (lzy : Bool) (slot : Option ℕ) (acc : List Char) (p : Char → Bool)
  | ropt (sub : List RItem)

mutual
/-- Size measure used for termination of the matcher. -/
def itemSize : RItem → ℕ
  | .rcls _ _ _ _ => 1
  | .ropt sub => 1 + itemsSize sub
/-- Size of a sequence of pattern items. -/
def itemsSize : List RItem → ℕ
  | [] => 0
  | i :: rest => itemSize i + itemsSize rest
end

/-- Backtracking matcher for a sequence of `RItem`s anchored at the
start of `t`, with Python `re` semantics: a greedy class consumes as
much as possible and backs off on failure of the remainder, a lazy
class consumes as little as possible (but at least one character) and
extends on failure, and a greedy optional group is tried with its body
first. Returns the captured groups and the remaining text. Structural
fuel makes the definition executable by the kernel; each recursive
call strictly decreases the measure `t.length * (itemsSize + 1)`, so
the fuel supplied by `matchDeptAt` below can never run out. -/
def matchItemsF : ℕ → List RItem → List Char → Option (List (ℕ × List Char) × List Char)
  | 0, _, _ => none
  | _ + 1, [], t => some ([], t)
  | fuel + 1, .rcls lzy slot acc p :: rest, t =>
    let fin : Option (List (ℕ × List Char) × List Char) :=
      if acc.isEmpty then none
      else (matchItemsF fuel rest t).map (fun pr =>
        ((match slot with
          | some i => [(i, acc)]
          | none => []) ++ pr.1, pr.2))
    let ext : Option (List (ℕ × List Char) × List Char) :=
      match t with
      | [] => none
      | c :: cs =>
        if p c then matchItemsF fuel (.rcls lzy slot (acc ++ [c]) p :: rest) cs else none
    if lzy then fin.orElse (fun _ => ext) else ext.orElse (fun _ => fin)
  | fuel + 1, .ropt sub :: rest, t =>
    (matchItemsF fuel (sub ++ rest) t).orElse (fun _ => matchItemsF fuel rest t)

/-- The department-name class `[A-Z0-9 \-&'\.]`. -/
def deptNameChar (c : Char) : Bool :=
  ('A' ≤ c && c ≤ 'Z') || c.isDigit || c = ' ' || c = '-' || c = '&' || c = Char.ofNat 39 || c = '.'

/-- The department pattern of `app.py` line 47 as a pattern-item list. -/
def deptPattern : List RItem :=
  [ .rcls true (some 1) [] deptNameChar,
    .rcls false none [] pySpace,
    .rcls false (some 2) [] (fun c => c.isDigit),
    .rcls false none [] pySpace,
    .rcls false (some 3) [] digitDot,
    .rcls false none [] pySpace,
    .ropt [ .rcls false none [] digitDot, .rcls false none [] pySpace ],
    .rcls false none [] digitDot ]

/-- Try the department pattern at the start of `t`. The fuel exceeds
the recursion-depth bound `t.length * (itemsSize deptPattern + 1) +
itemsSize deptPattern + 1` (with `itemsSize deptPattern = 10`), so the
fuelled matcher behaves as the unbounded one on every input. -/
def matchDeptAt (t : List Char) : Option (List (ℕ × List Char) × List Char) :=
  matchItemsF (16 * t.length + 16) deptPattern t

/-- `re.findall` for the department pattern: at each position try the
anchored match; on success emit the three captured groups and resume
after the matched text (bumping one position on a hypothetical empty
match, as `findall` does). -/
def deptScanAux : ℕ → List Char → List (String × String × String)
  | _, [] => []
  | skip + 1, _ :: cs => deptScanAux skip cs
  | 0, c :: cs =>
    match matchDeptAt (c :: cs) with
    | some (caps, rest) =>
      (String.mk ((caps.lookup 1).getD []),
       String.mk ((caps.lookup 2).getD []),
       String.mk ((caps.lookup 3).getD [])) :: deptScanAux (cs.length - rest.length) cs
    | none => deptScanAux 0 cs

/-- All department-pattern matches of a text, in document order. -/
def deptFindall (t : List Char) : List (String × String × String) :=
  deptScanAux 0 t

example : deptFindall "GROCERY 10 150.00 3.1 160.00\nDELI 5 50.00 55.00".toList
    = [("GROCERY", "10", "150.00"), ("DELI", "5", "50.00")] := by decide
example : deptFindall "GROCERY 10 150.00\nDELI 5 50.00".toList = [] := by decide

/-- One row of the department table (`dept_df` after the `astype`
conversions of `app.py` lines 50-51): the name string, the quantity
(`\d+`, hence a natural number) and the sales amount. -/
structure DeptRow where
  department : String
  qty : ℕ
  sales : ℚ
  deriving DecidableEq, Repr

/-- The typed record returned by `parse_basic_metrics` (`app.py`
lines 53-59). -/
structure Metrics where
  subtotal : ℚ
  tax_a : ℚ
  tax_b : ℚ
  tax_c : ℚ
  tax_total : ℚ
  grand_total : ℚ
  payments : List (String × ℚ)
  dept_rows : List DeptRow
  deriving DecidableEq, Repr

/-- The `astype(int)` / `astype(float)` conversion of one raw department
row; `astype(float)` raises `ValueError` on a malformed sales token. -/
def deptRowConv (r : String × String × String) : Except PyErr DeptRow :=
  match pyFloatE r.2.2.toList with
  | .error e => .error e
  | .ok q => .ok ⟨r.1, digitsToNat r.2.1.toList, q⟩

/-- Convert all raw department rows, left to right. -/
def deptRowsConv : List (String × String × String) → Except PyErr (List DeptRow)
  | [] => .ok []
  | r :: rs =>
    match deptRowConv r with
    | .error e => .error e
    | .ok d =>
      match deptRowsConv rs with
      | .error e => .error e
      | .ok ds => .ok (d :: ds)

/-- `parse_basic_metrics(text)` from `app.py` lines 28-59: the six
scalar fields via `grab` (first match of each pattern, default 0), the
payment mapping, and the department table. A `float` conversion failure
anywhere aborts the whole call with the `ValueError`, in source order:
the scalars first, then the payments, then the department table. -/
def parse_basic_metrics (text : List Char) : Except PyErr Metrics := do
  let subtotal ← grab "Merchandise Sales".toList false text
  let tax_a ← grab "Tax A".toList false text
  let tax_b ← grab "Tax B".toList false text
  let tax_c ← grab "Tax C".toList false text
  let tax_total ← grab "Tax Total".toList false text
  let grand ← grab "Total".toList true text
  let pays ← pyPayments text
  let dept ← deptRowsConv (deptFindall text)
  return ⟨subtotal, tax_a, tax_b, tax_c, tax_total, grand, pays, dept⟩

/-- The three scalar extractions of the earlier variant `src/app0.py`
(lines 20-26): same label patterns but no `\b` on `Total`; returns
(total_sales, tax, grand_total), taking 0 for a missing match. Malformed
tokens raise exactly as in `app.py`, so for the comparison theorem we
expose only the happy-path triple. -/
def app0_scalars (text : List Char) : Except PyErr (ℚ × ℚ × ℚ) := do
  let total_sales ← grab "Merchandise Sales".toList false text
  let tax ← grab "Tax A".toList false text
  let grand_total ← grab "Total".toList false text
  return (total_sales, tax, grand_total)

/-- The end-to-end scenario text of the specification (§8). -/
def endToEndText : List Char :=
  ("Merchandise Sales 200.00\nTax A 10.00\nTax Total 16.00\nTotal 216.00\n" ++
   "Cash: 216.00\nGROCERY 10 150.00\nDELI 5 50.00").toList


/-- The descending-sales order used by
`dept_df.sort_values("Sales", ascending=False)` (`app.py` line 68). -/
def deptGe (a b : DeptRow) : Prop := b.sales ≤ a.sales

instance : DecidableRel deptGe := fun a b => inferInstanceAs (Decidable (b.sales ≤ a.sales))

instance : IsTotal DeptRow deptGe := ⟨fun a b => le_total b.sales a.sales⟩

instance : IsTrans DeptRow deptGe := ⟨fun _ _ _ h1 h2 => le_trans h2 h1⟩

/-- `dept_preview` from `analyze_with_ai` (`app.py` lines 66-72): sort
the department rows by descending sales and keep the first 20 (empty
table → empty preview). pandas' sort is modelled by a comparison sort;
under the distinct-sales hypotheses of the theorems below every correct
comparison sort returns the same list. -/
def dept_preview (rows : List DeptRow) : List DeptRow :=
  if rows.isEmpty then [] else (List.insertionSort deptGe rows).take 20

/-- The request payload `analyze_with_ai` sends to the external
collaborator (`app.py` lines 78-96): the model identifier, the parsed
scalar fields and payments, the top-20 department preview, and the raw
text truncated to its first 6000 characters. -/
structure AuditRequest where
  modelName : String
  subtotal : ℚ
  tax_a : ℚ
  tax_b : ℚ
  tax_c : ℚ
  tax_total : ℚ
  grand_total : ℚ
  payments : List (String × ℚ)
  departments_top20 : List DeptRow
  raw_text_excerpt : List Char

/-- Build the outbound request (`app.py` lines 66-96). -/
def buildRequest (text : List Char) (m : Metrics) (model_name : String) : AuditRequest :=
  ⟨model_name, m.subtotal, m.tax_a, m.tax_b, m.tax_c, m.tax_total, m.grand_total,
   m.payments, dept_preview m.dept_rows, text.take 6000⟩

/-- `estimated_cost(model_name, in_t, out_t)` from `app.py` lines
166-171, in dollars (token counts as exact rationals). -/
def estimated_cost (model_name : String) (in_t out_t : ℚ) : ℚ :=
  if model_name = "gpt-5" then in_t / 1000000 * (125 / 100) + out_t / 1000000 * 10
  else if model_name = "gpt-5-mini" then in_t / 1000000 * (25 / 100) + out_t / 1000000 * 2
  else 0

/-- Documented per-million-input-token rate of each model (0 for an
unknown identifier, matching the `0.0` fallthrough of the source). -/
def ratePerMillionInput (model_name : String) : ℚ :=
  if model_name = "gpt-5" then 125 / 100
  else if model_name = "gpt-5-mini" then 25 / 100
  else 0

/-- Documented per-million-output-token rate of each model. -/
def ratePerMillionOutput (model_name : String) : ℚ :=
  if model_name = "gpt-5" then 10
  else if model_name = "gpt-5-mini" then 2
  else 0

/-- JSON-shaped values as returned by `json.loads` on the external
collaborator's response. -/
inductive JVal where
  | null
  | bool (b : Bool)
  | num (q : ℚ)
  | str (s : String)
  | arr (xs : List JVal)
  | obj (fields : List (String × JVal))

/-- Python dict lookup on a parsed JSON object. -/
def jLookup (fields : List (String × JVal)) (k : String) : Option JVal :=
  match fields with
  | [] => none
  | p :: rest => if p.1 = k then some p.2 else jLookup rest k

/-- Python truthiness of a JSON value (`if issues:`). -/
def pyTruthy : JVal → Bool
  | .null => false
  | .bool b => b
  | .num q => decide (q ≠ 0)
  | .str s => s ≠ ""
  | .arr xs => !xs.isEmpty
  | .obj fields => !fields.isEmpty

/-- The token usage object attached to a response (`prompt_tokens`,
`completion_tokens`, read with default 0 in `app.py` lines 161-162). -/
structure Usage where
  prompt_tokens : ℕ
  completion_tokens : ℕ

/-- What the AI-audit section of the page displays. -/
inductive FindingsView where
  | table (issues : JVal)
  | noIssues

/-- The rendered AI section: either the single error box
(`st.error(result["error"])`) or the report (summary, findings table or
"no issues" banner, optional cost caption). -/
inductive AiSection where
  | errorBox (msg : JVal)
  | report (summary : JVal) (findings : FindingsView) (costCaption : Option ℚ)

/-- Lines 144-172 of `app.py`: render the analysis result. A dict with
an `"error"` key shows only the error box. Otherwise the summary is
shown with default "—", `issues = result.get("issues", [])` is shown as
a dataframe exactly as received when truthy (missing per-issue fields
stay missing) and as a success banner when empty, and a cost caption is
added when usage is present. A non-dict result would hit `.get` and
raise `AttributeError`. -/
def renderResult (result : JVal) (usage : Option Usage) (model_name : String) :
    Except PyErr AiSection :=
  match result with
  | .obj fields =>
    match jLookup fields "error" with
    | some msg => .ok (.errorBox msg)
    | none =>
      let summary := (jLookup fields "summary").getD (.str "—")
      let issues := (jLookup fields "issues").getD (.arr [])
      let fv : FindingsView := if pyTruthy issues then .table issues else .noIssues
      let cost := usage.map (fun u =>
        estimated_cost model_name u.prompt_tokens u.completion_tokens)
      .ok (.report summary fv cost)
  | _ => .error .attributeError

/-- The external collaborator (network call plus `json.loads`), as an
oracle from the request to a parsed response and optional usage. -/
def Oracle : Type := AuditRequest → JVal × Option Usage

/-- `analyze_with_ai(text, metrics, model_name)` from `app.py` lines
61-111: with no API key there is no client and the function returns the
error record `{"error": "No OPENAI_API_KEY set."}` with no usage,
without contacting the collaborator; otherwise it sends the built
request and returns the parsed response. -/
def analyze_with_ai (client : Option Oracle) (text : List Char) (m : Metrics)
    (model_name : String) : JVal × Option Usage :=
  match client with
  | none => (.obj [("error", .str "No OPENAI_API_KEY set.")], none)
  | some oracle => oracle (buildRequest text m model_name)

/-- Everything the `uploaded_file` branch of `app.py` (lines 113-175)
derives from the parsed metrics and presents: the four KPI values, the
payments pie data, the department table (displayed sorted by descending
sales), and the AI section when the analysis was run. -/
structure PageOut where
  kpi_subtotal : ℚ
  kpi_tax_total : ℚ
  kpi_payments_sum : ℚ
  kpi_grand_total : ℚ
  payments_pie : List (String × ℚ)
  dept_table : List DeptRow
  ai_section : Option AiSection

/-- `sum(m['payments'].values())` (`app.py` line 121). -/
def paySum (payments : List (String × ℚ)) : ℚ :=
  (payments.map (fun p => p.2)).sum

/-- The `uploaded_file` branch of `app.py` for one document: parse the
text, present the metrics, and (when `run_now`) run the analysis and
render its result. The parse and the presentation of metrics do not
depend on the client at all. -/
def pipeline (client : Option Oracle) (model_name : String) (run_now : Bool)
    (text : List Char) : Except PyErr PageOut :=
  match parse_basic_metrics text with
  | .error e => .error e
  | .ok m =>
    match (if run_now then
        (let ru := analyze_with_ai client text m model_name
         (renderResult ru.1 ru.2 model_name).map some)
      else .ok none) with
    | .error e => .error e
    | .ok ai =>
      .ok ⟨m.subtotal, m.tax_total, paySum m.payments, m.grand_total,
           m.payments, List.insertionSort deptGe m.dept_rows, ai⟩

/-- Severity levels of a finding (spec §3). -/
inductive Severity where
  | INFO
  | WARNING
  | CRITICAL
  deriving DecidableEq, Repr

/-- A locally produced finding: severity and message (spec §4.3). -/
structure Finding where
  severity : Severity
  message : String
  deriving DecidableEq, Repr

/-- The reconciliation tolerance ε = 0.01 (spec §4.3). -/
def tolEps : ℚ := 1 / 100

/-- Modelled from the spec: the repository has no local Consistency
Validator — `app.py` delegates all anomaly detection to the external
collaborator — so `validate(metrics, deptRows)` is modelled from the
spec's own §4.3 contract: the reconciliation CRITICAL, the drawer
mismatch WARNING, the zero-tax WARNING, and the negative-value CRITICAL
(the quantity column is a natural number and cannot be negative). -/
def validate (m : Metrics) (deptRows : List DeptRow) : List Finding :=
  (if tolEps < |m.subtotal + m.tax_total - m.grand_total| then
    [⟨.CRITICAL, "grand total does not reconcile with subtotal + tax."⟩] else []) ++
  (if tolEps < |paySum m.payments - m.grand_total| then
    [⟨.WARNING, "payment total does not match grand total (drawer mismatch)."⟩] else []) ++
  (if 0 < m.subtotal ∧ m.tax_total = 0 then
    [⟨.WARNING, "zero tax on non-zero sales."⟩] else []) ++
  (if m.subtotal < 0 ∨ m.tax_a < 0 ∨ m.tax_b < 0 ∨ m.tax_c < 0 ∨ m.tax_total < 0 ∨
      m.grand_total < 0 ∨ m.payments.any (fun p => decide (p.2 < 0)) ∨
      deptRows.any (fun r => decide (r.sales < 0)) then
    [⟨.CRITICAL, "negative value where none expected."⟩] else [])



theorem sLookup_map_set_same {α : Type} (k : String) (v : α) :
    ∀ (d : List (String × α)), d.any (fun p => decide (p.1 = k)) = true →
      sLookup (d.map (fun p => if p.1 = k then (k, v) else p)) k = some v := by
  intro d
  induction d with
  | nil => intro h; simp at h
  | cons q qs ih =>
    intro h
    simp only [List.map_cons]
    by_cases hq : q.1 = k
    · rw [if_pos hq]
      simp [sLookup]
    · rw [if_neg hq]
      have h2 : qs.any (fun p => decide (p.1 = k)) = true := by
        simpa [hq] using h
      simpa [sLookup, hq] using ih h2

theorem sLookup_map_set_other {α : Type} (k1 k : String) (v : α) (hne : k1 ≠ k) :
    ∀ (d : List (String × α)),
      sLookup (d.map (fun p => if p.1 = k1 then (k1, v) else p)) k = sLookup d k := by
  intro d
  induction d with
  | nil => rfl
  | cons q qs ih =>
    simp only [List.map_cons]
    by_cases hq : q.1 = k1
    · rw [if_pos hq]
      have hqk : ¬ q.1 = k := by rw [hq]; exact hne
      simpa [sLookup, hne, hqk] using ih
    · rw [if_neg hq]
      by_cases hqk : q.1 = k
      · simp [sLookup, hqk]
      · simpa [sLookup, hqk] using ih

theorem sLookup_append_single {α : Type} (k1 k : String) (v : α) :
    ∀ (d : List (String × α)),
      sLookup (d ++ [(k1, v)]) k
        = match sLookup d k with
          | some w => some w
          | none => if k1 = k then some v else none := by
  intro d
  induction d with
  | nil => rfl
  | cons q qs ih =>
    by_cases hq : q.1 = k
    · simp [sLookup, hq]
    · simpa [sLookup, hq] using ih

theorem sLookup_none_of_not_any {α : Type} (k : String) :
    ∀ (d : List (String × α)), d.any (fun p => decide (p.1 = k)) = false →
      sLookup d k = none := by
  intro d
  induction d with
  | nil => intro _; rfl
  | cons q qs ih =>
    intro h
    simp only [List.any_cons, Bool.or_eq_false_iff, decide_eq_false_iff_not] at h
    simpa [sLookup, h.1] using ih (by simpa using h.2)

theorem sLookup_pyDictSet_same {α : Type} (d : List (String × α)) (k : String) (v : α) :
    sLookup (pyDictSet d k v) k = some v := by
  unfold pyDictSet
  cases hany : d.any (fun p => decide (p.1 = k)) with
  | true =>
    simp only [if_pos rfl]
    exact sLookup_map_set_same k v d hany
  | false =>
    simp only [Bool.false_eq_true, if_false]
    rw [sLookup_append_single k k v d, sLookup_none_of_not_any k d hany]
    simp

theorem sLookup_pyDictSet_other {α : Type} (d : List (String × α)) (k1 k : String) (v : α)
    (hne : k1 ≠ k) : sLookup (pyDictSet d k1 v) k = sLookup d k := by
  unfold pyDictSet
  cases hany : d.any (fun p => decide (p.1 = k1)) with
  | true =>
    simp only [if_pos rfl]
    exact sLookup_map_set_other k1 k v hne d
  | false =>
    simp only [Bool.false_eq_true, if_false]
    rw [sLookup_append_single k1 k v d]
    cases h : sLookup d k with
    | some w => rfl
    | none => simp [hne]

theorem sLookup_pyDictOf {α : Type} (pairs : List (String × α)) (k : String) :
    sLookup (pyDictOf pairs) k = lastVal k pairs := by
  suffices h : ∀ (ps : List (String × α)) (d : List (String × α)),
      sLookup (ps.foldl (fun d p => pyDictSet d p.1 p.2) d) k
        = ps.foldl (fun acc p => if p.1 = k then some p.2 else acc) (sLookup d k) by
    simpa [pyDictOf, lastVal, sLookup] using h pairs []
  intro ps
  induction ps with
  | nil => intro d; rfl
  | cons p ps ih =>
    intro d
    simp only [List.foldl_cons]
    rw [ih]
    by_cases hp : p.1 = k
    · rw [show pyDictSet d p.1 p.2 = pyDictSet d k p.2 by rw [hp],
        sLookup_pyDictSet_same, if_pos hp]
    · rw [sLookup_pyDictSet_other _ _ _ _ hp, if_neg hp]

theorem lastVal_map_val {α β : Type} (k : String) (f : α → β) (pairs : List (String × α)) :
    lastVal k (pairs.map (fun p => (p.1, f p.2))) = (lastVal k pairs).map f := by
  suffices h : ∀ (ps : List (String × α)) (acc : Option α),
      (ps.map (fun p => (p.1, f p.2))).foldl (fun a p => if p.1 = k then some p.2 else a)
          (acc.map f)
        = (ps.foldl (fun a p => if p.1 = k then some p.2 else a) acc).map f by
    simpa [lastVal] using h pairs none
  intro ps
  induction ps with
  | nil => intro acc; rfl
  | cons p ps ih =>
    intro acc
    simp only [List.map_cons, List.foldl_cons]
    by_cases hp : p.1 = k
    · simp only [hp, if_true]
      exact ih (some p.2)
    · simp only [hp, if_false]
      exact ih acc

theorem payLoop_preserves_inr (q : ℚ) (k : String) :
    ∀ (keys : List String) (d d2 : List (String × PayVal)),
      sLookup d k = some (.inr q) → payLoop keys d = .ok d2 →
      sLookup d2 k = some (.inr q) := by
  intro keys
  induction keys with
  | nil =>
    intro d d2 hd hp
    cases hp
    exact hd
  | cons j js ih =>
    intro d d2 hd hp
    by_cases hj : j = k
    · subst hj
      rw [payLoop, hd] at hp
      exact ih _ _ (by rw [sLookup_pyDictSet_same]) hp
    · rw [payLoop] at hp
      cases hcur : (match sLookup d j with
        | some (.inl s) => pyFloatE s.toList
        | some (.inr q) => .ok q
        | none => .ok 0) with
      | error e => rw [hcur] at hp; cases hp
      | ok w =>
        rw [hcur] at hp
        exact ih _ _ (by rw [sLookup_pyDictSet_other _ _ _ _ hj]; exact hd) hp

theorem payLoop_converts (q : ℚ) (k : String) (v : String) :
    ∀ (keys : List String) (d d2 : List (String × PayVal)),
      k ∈ keys → sLookup d k = some (.inl v) → pyFloatE v.toList = .ok q →
      payLoop keys d = .ok d2 → sLookup d2 k = some (.inr q) := by
  intro keys
  induction keys with
  | nil => intro d d2 hmem; cases hmem
  | cons j js ih =>
    intro d d2 hmem hd hq hp
    by_cases hj : j = k
    · subst hj
      rw [payLoop, hd] at hp
      have hp2 : payLoop js (pyDictSet d j (Sum.inr q)) = .ok d2 := by
        have h3 : (match pyFloatE v.toList with
          | Except.error e => Except.error e
          | Except.ok w => payLoop js (pyDictSet d j (Sum.inr w))) = Except.ok d2 := hp
        rw [hq] at h3
        exact h3
      exact payLoop_preserves_inr q j js _ _ (by rw [sLookup_pyDictSet_same]) hp2
    · have hmem2 : k ∈ js := by
        cases hmem with
        | head => exact absurd rfl hj
        | tail _ h => exact h
      rw [payLoop] at hp
      cases hcur : (match sLookup d j with
        | some (.inl s) => pyFloatE s.toList
        | some (.inr q) => .ok q
        | none => .ok 0) with
      | error e => rw [hcur] at hp; cases hp
      | ok w =>
        rw [hcur] at hp
        exact ih _ _ hmem2 (by rw [sLookup_pyDictSet_other _ _ _ _ hj]; exact hd) hq hp

theorem sLookup_payValuesToRat (q : ℚ) (k : String) :
    ∀ (d : List (String × PayVal)), sLookup d k = some (.inr q) →
      sLookup (payValuesToRat d) k = some q := by
  intro d
  induction d with
  | nil => intro h; cases h
  | cons p ps ih =>
    intro h
    rw [sLookup] at h
    by_cases hp : p.1 = k
    · rw [if_pos hp] at h
      cases hv : p.2 with
      | inl s => rw [hv] at h; cases h
      | inr w =>
        rw [hv] at h
        cases h
        simp [payValuesToRat, hv, sLookup, hp]
    · rw [if_neg hp] at h
      have := ih h
      cases hv : p.2 with
      | inl s => simpa [payValuesToRat, hv, sLookup, hp] using this
      | inr w => simpa [payValuesToRat, hv, sLookup, hp] using this

theorem dropLit_isPre : ∀ (pat t r : List Char), dropLit pat t = some r →
    listIsPre pat t = true := by
  intro pat
  induction pat with
  | nil => intro t r _; rfl
  | cons a as1 ih =>
    intro t r h
    cases t with
    | nil => cases h
    | cons b bs =>
      rw [dropLit] at h
      by_cases hab : a = b
      · rw [if_pos hab] at h
        simpa [listIsPre, hab] using ih bs r h
      · rw [if_neg hab] at h
        cases h

theorem matchScalarAt_isPre (label t : List Char) (tok : List Char)
    (h : matchScalarAt label t = some tok) : listIsPre label t = true := by
  unfold matchScalarAt at h
  cases hd : dropLit label t with
  | none => rw [hd] at h; cases h
  | some r1 => exact dropLit_isPre label t r1 hd

theorem searchScalarAux_occurs (label : List Char) (wb : Bool) :
    ∀ (t : List Char) (prev : Option Char) (tok : List Char),
      searchScalarAux label wb prev t = some tok → occursB label t = true := by
  intro t
  induction t with
  | nil => intro prev tok h; cases h
  | cons c cs ih =>
    intro prev tok h
    rw [searchScalarAux.eq_def] at h
    simp only at h
    cases hmat : matchScalarAt label (c :: cs) with
    | some tok2 => simp [occursB, matchScalarAt_isPre label (c :: cs) tok2 hmat]
    | none =>
      rw [hmat, ite_self] at h
      simp [occursB, ih (some c) tok h]

/-- C8: `estimated_cost` equals `inputTokens/1e6 * ratePerMillionInput +
outputTokens/1e6 * ratePerMillionOutput`, with rates 0.25/2.0 per
million for the fast model `gpt-5-mini` and 1.25/10.0 for the deep model
`gpt-5`; any other model identifier yields 0.0 rather than failing, and
one million input and output tokens on the fast model cost exactly
0.25 + 2.0 = 2.25. -/
theorem estimated_cost_formula :
    (∀ (mn : String) (in_t out_t : ℚ),
      estimated_cost mn in_t out_t
        = in_t / 1000000 * ratePerMillionInput mn
          + out_t / 1000000 * ratePerMillionOutput mn) ∧
    ratePerMillionInput "gpt-5-mini" = 25 / 100 ∧
    ratePerMillionOutput "gpt-5-mini" = 2 ∧
    ratePerMillionInput "gpt-5" = 125 / 100 ∧
    ratePerMillionOutput "gpt-5" = 10 ∧
    (∀ (mn : String) (in_t out_t : ℚ), mn ≠ "gpt-5" → mn ≠ "gpt-5-mini" →
      estimated_cost mn in_t out_t = 0) ∧
    estimated_cost "gpt-5-mini" 1000000 1000000 = 9 / 4 := by
  have hmini : ¬ ("gpt-5-mini" : String) = "gpt-5" := by decide
  refine ⟨?_,
    by unfold ratePerMillionInput; rw [if_neg hmini, if_pos rfl],
    by unfold ratePerMillionOutput; rw [if_neg hmini, if_pos rfl],
    by unfold ratePerMillionInput; rw [if_pos rfl],
    by unfold ratePerMillionOutput; rw [if_pos rfl], ?_,
    by unfold estimated_cost; rw [if_neg hmini, if_pos rfl]; norm_num⟩
  · intro mn in_t out_t
    unfold estimated_cost ratePerMillionInput ratePerMillionOutput
    split_ifs <;> ring
  · intro mn in_t out_t h1 h2
    unfold estimated_cost
    rw [if_neg h1, if_neg h2]

theorem estimated_cost_formula_witness :
    ("o3" : String) ≠ "gpt-5" ∧ ("o3" : String) ≠ "gpt-5-mini" ∧
    estimated_cost "o3" 5 7 = 0 :=
  ⟨by decide, by decide,
   estimated_cost_formula.2.2.2.2.2.1 "o3" 5 7 (by decide) (by decide)⟩

/-- C1 (code bug): on the spec's end-to-end input text, the grand-total
pattern `\bTotal\s+([\d\.]+)` of `app.py` line 39 first matches the
"Total" inside "Tax Total" (a word boundary holds after a space), so
`parse_basic_metrics` extracts `grand_total = 16.00` — the tax total —
instead of the 216.00 the claim states; subtotal (200.00) and tax total
(16.00) come out as claimed. The earlier variant `app0.py` (pattern
without `\b`) extracts the same wrong 16.00. -/
theorem grand_total_matches_inside_tax_total :
    (parse_basic_metrics endToEndText).map
        (fun m => (m.subtotal, m.tax_total, m.grand_total)) = .ok (200, 16, 16) ∧
    app0_scalars endToEndText = .ok (200, 10, 16) := by
  constructor
  · decide
  · decide

/-- C3 counterexample: a matched-but-malformed numeric token makes the
extraction fail with the plain `float()` `ValueError` carrying only the
token — two different fields failing on the same token produce
identical errors, so the error cannot name the field, and no
`MalformedFieldError` exists in the code. -/
theorem malformed_token_error_names_no_field :
    parse_basic_metrics "Merchandise Sales 1.2.3".toList
      = .error (.valueError "1.2.3") ∧
    parse_basic_metrics "Tax A 1.2.3".toList = .error (.valueError "1.2.3") := by
  constructor
  · decide
  · decide

/-- C3 (amended): when a scalar pattern matches but the captured token
is not parseable as a float, extraction aborts with a `ValueError`
carrying only the offending token (not the field name); a pattern with
no match never raises and yields the default 0. -/
theorem malformed_token_raises_valueerror :
    (∀ (t : List Char) (tok : List Char),
      searchScalarAux "Merchandise Sales".toList false none t = some tok →
      pyFloat tok = none →
      parse_basic_metrics t = .error (.valueError (String.mk tok))) ∧
    (∀ (label : List Char) (wb : Bool) (t : List Char),
      searchScalarAux label wb none t = none → grab label wb t = .ok 0) := by
  constructor
  · intro t tok hs hf
    have hg : grab "Merchandise Sales".toList false t
        = .error (.valueError (String.mk tok)) := by
      unfold grab
      rw [hs]
      show pyFloatE tok = .error (.valueError (String.mk tok))
      unfold pyFloatE
      rw [hf]
    unfold parse_basic_metrics
    rw [hg]
    rfl
  · intro label wb t hs
    unfold grab
    rw [hs]
    decide

theorem malformed_token_raises_valueerror_witness :
    searchScalarAux "Merchandise Sales".toList false none
        "Merchandise Sales 9..9 Tax".toList = some "9..9".toList ∧
    pyFloat "9..9".toList = none ∧
    parse_basic_metrics "Merchandise Sales 9..9 Tax".toList
      = .error (.valueError "9..9") ∧
    searchScalarAux "Tax B".toList false none "Merchandise Sales 9..9 Tax".toList = none ∧
    grab "Tax B".toList false "Merchandise Sales 9..9 Tax".toList = .ok 0 :=
  ⟨by decide, by decide,
   malformed_token_raises_valueerror.1 _ _ (by decide) (by decide),
   by decide,
   malformed_token_raises_valueerror.2 _ _ _ (by decide)⟩

/-- C6 counterexample: the text "Merchandise Sales 123.456" contains the
substring "Merchandise Sales 123.45", yet extraction returns subtotal
123.456 (the greedy capture runs past the claimed token), so the claim's
universal statement over all texts containing the substring is false. -/
theorem subtotal_containing_text_counterexample :
    countOccur "Merchandise Sales 123.45".toList "Merchandise Sales 123.456".toList = 1 ∧
    (parse_basic_metrics "Merchandise Sales 123.456".toList).map (fun m => m.subtotal)
      = .ok (mkRat 123456 1000) ∧
    mkRat 123456 1000 ≠ mkRat 12345 100 := by
  refine ⟨by decide, by decide, by decide⟩

/-- C6 (amended): whenever the first match of the subtotal pattern
`Merchandise Sales\s+([\d\.]+)` captures exactly the token "123.45" —
as it does when such an occurrence is first and is not followed by more
numeric characters — the extracted subtotal is 123.45; and for every
text with no occurrence of the label "Merchandise Sales" at all, the
extraction returns the default 0.0 rather than an error. -/
theorem subtotal_first_match_and_default :
    (∀ t : List Char,
      searchScalarAux "Merchandise Sales".toList false none t = some "123.45".toList →
      grab "Merchandise Sales".toList false t = .ok (mkRat 12345 100)) ∧
    (∀ t : List Char, occursB "Merchandise Sales".toList t = false →
      grab "Merchandise Sales".toList false t = .ok 0) := by
  constructor
  · intro t h
    unfold grab
    rw [h]
    decide
  · intro t h
    cases hs : searchScalarAux "Merchandise Sales".toList false none t with
    | some tok =>
      have hocc := searchScalarAux_occurs "Merchandise Sales".toList false t none tok hs
      rw [h] at hocc
      cases hocc
    | none =>
      unfold grab
      rw [hs]
      decide

theorem subtotal_first_match_and_default_witness :
    searchScalarAux "Merchandise Sales".toList false none
        "xx Merchandise Sales 123.45 end".toList = some "123.45".toList ∧
    grab "Merchandise Sales".toList false "xx Merchandise Sales 123.45 end".toList
      = .ok (mkRat 12345 100) ∧
    occursB "Merchandise Sales".toList "Total 5.00".toList = false ∧
    grab "Merchandise Sales".toList false "Total 5.00".toList = .ok 0 :=
  ⟨by decide, subtotal_first_match_and_default.1 _ (by decide), by decide,
   subtotal_first_match_and_default.2 _ (by decide)⟩

/-- C5 counterexample: the text "Cash: 50.00 Visa: 75.259" contains the
substring "Cash: 50.00 Visa: 75.25" and no other occurrence of any of
the six payment labels, yet the extracted mapping binds Visa to 75.259
(the greedy amount capture runs past the claimed token), so the claim's
universal statement over such texts is false. -/
theorem payments_containing_text_counterexample :
    countOccur "Cash: 50.00 Visa: 75.25".toList "Cash: 50.00 Visa: 75.259".toList = 1 ∧
    countOccur "Cash".toList "Cash: 50.00 Visa: 75.259".toList = 1 ∧
    countOccur "AmEx".toList "Cash: 50.00 Visa: 75.259".toList = 0 ∧
    countOccur "Visa".toList "Cash: 50.00 Visa: 75.259".toList = 1 ∧
    countOccur "Master".toList "Cash: 50.00 Visa: 75.259".toList = 0 ∧
    countOccur "Other".toList "Cash: 50.00 Visa: 75.259".toList = 0 ∧
    countOccur "Discover".toList "Cash: 50.00 Visa: 75.259".toList = 0 ∧
    pyPayments "Cash: 50.00 Visa: 75.259".toList
      = .ok [("Cash", 50), ("Visa", mkRat 75259 1000), ("AmEx", 0), ("Master", 0),
             ("Other", 0), ("Discover", 0)] ∧
    mkRat 75259 1000 ≠ mkRat 7525 100 := by
  refine ⟨by decide, by decide, by decide, by decide, by decide, by decide, by decide,
    by decide, by decide⟩

/-- C5 (amended): whenever the payment scan over the text yields exactly
the matches Cash→"50.00" and Visa→"75.25" — as it does for the text
"Cash: 50.00 Visa: 75.25" itself — the extracted mapping holds every key
of the fixed six-name set, with 50.00 for Cash, 75.25 for Visa and 0.0
for the four methods unseen in the text. -/
theorem payment_mapping_from_exact_matches :
    ∀ t : List Char, findPays t = [("Cash", "50.00"), ("Visa", "75.25")] →
      pyPayments t = .ok [("Cash", 50), ("Visa", mkRat 7525 100), ("AmEx", 0),
        ("Master", 0), ("Other", 0), ("Discover", 0)] := by
  intro t h
  unfold pyPayments
  rw [h]
  decide

theorem payment_mapping_from_exact_matches_witness :
    findPays "Cash: 50.00 Visa: 75.25".toList = [("Cash", "50.00"), ("Visa", "75.25")] ∧
    pyPayments "Cash: 50.00 Visa: 75.25".toList
      = .ok [("Cash", 50), ("Visa", mkRat 7525 100), ("AmEx", 0), ("Master", 0),
             ("Other", 0), ("Discover", 0)] :=
  ⟨by decide, payment_mapping_from_exact_matches _ (by decide)⟩

/-- C10: building a Python dict from the full payment match list keeps
the final value per key, so a method that occurs several times in the
text is bound to the amount of its last occurrence in document order
(converted by `float`). -/
theorem payments_last_occurrence_wins :
    ∀ (t : List Char) (k : String) (v : String) (q : ℚ) (P : List (String × ℚ)),
      k ∈ payLabels →
      lastVal k (findPays t) = some v →
      pyFloatE v.toList = .ok q →
      pyPayments t = .ok P →
      sLookup P k = some q := by
  intro t k v q P hk hlast hq hpp
  unfold pyPayments payCompute at hpp
  cases hloop : payLoop payLabels
      (pyDictOf ((findPays t).map (fun p => (p.1, Sum.inl p.2)))) with
  | error e => rw [hloop] at hpp; cases hpp
  | ok d2 =>
    rw [hloop] at hpp
    cases hpp
    have hd0 : sLookup (pyDictOf ((findPays t).map
          (fun p => (p.1, (Sum.inl p.2 : PayVal))))) k
        = some (Sum.inl v : PayVal) := by
      rw [sLookup_pyDictOf, lastVal_map_val k (fun x => (Sum.inl x : PayVal)) (findPays t),
        hlast]
      rfl
    exact sLookup_payValuesToRat q k d2
      (payLoop_converts q k v payLabels _ d2 hk hd0 hq hloop)

theorem payments_last_occurrence_wins_witness :
    ("Cash" ∈ payLabels) ∧
    lastVal "Cash" (findPays "Cash: 10.00 Cash: 20.00".toList) = some "20.00" ∧
    pyFloatE "20.00".toList = .ok 20 ∧
    pyPayments "Cash: 10.00 Cash: 20.00".toList
      = .ok [("Cash", 20), ("AmEx", 0), ("Visa", 0), ("Master", 0), ("Other", 0),
             ("Discover", 0)] ∧
    sLookup [(("Cash" : String), (20 : ℚ)), ("AmEx", 0), ("Visa", 0), ("Master", 0),
             ("Other", 0), ("Discover", 0)] "Cash" = some 20 :=
  ⟨by decide, by decide, by decide, by decide,
   payments_last_occurrence_wins "Cash: 10.00 Cash: 20.00".toList "Cash" "20.00" 20 _
     (by decide) (by decide) (by decide) (by decide)⟩

/-- C4 counterexample: a response whose issues list holds an object with
a message but no severity is accepted and displayed, but the missing
severity is left absent in the displayed finding — it is not normalized
to INFO (no defaulting exists in the code). -/
theorem missing_severity_not_defaulted_to_info :
    renderResult (.obj [("summary", .str "s"),
        ("issues", .arr [.obj [("message", .str "x")]])]) none "gpt-5-mini"
      = .ok (.report (.str "s") (.table (.arr [.obj [("message", .str "x")]])) none) ∧
    jLookup [("message", JVal.str "x")] "severity" = none :=
  ⟨rfl, rfl⟩

/-- C4 (amended): a response with a non-empty issues list and no
`"error"` key is accepted — never rejected — and its issue objects are
displayed exactly as received, so an issue without a severity field
simply stays without one (no INFO defaulting). -/
theorem response_without_severity_accepted_unchanged :
    ∀ (fields : List (String × JVal)) (xs : List JVal) (u : Option Usage) (mn : String),
      jLookup fields "error" = none →
      jLookup fields "issues" = some (.arr xs) →
      xs ≠ [] →
      renderResult (.obj fields) u mn
        = .ok (.report ((jLookup fields "summary").getD (.str "—")) (.table (.arr xs))
            (u.map (fun usg => estimated_cost mn usg.prompt_tokens usg.completion_tokens))) := by
  intro fields xs u mn herr hiss hne
  unfold renderResult
  simp only
  rw [herr, hiss]
  have ht : pyTruthy (.arr xs) = true := by
    cases xs with
    | nil => exact absurd rfl hne
    | cons a as1 => rfl
  simp only [Option.getD_some, ht, if_true, if_pos trivial]

theorem response_without_severity_accepted_unchanged_witness :
    jLookup [("issues", JVal.arr [.obj [("message", .str "x")]])] "error" = none ∧
    jLookup [("issues", JVal.arr [.obj [("message", .str "x")]])] "issues"
      = some (.arr [.obj [("message", .str "x")]]) ∧
    renderResult (.obj [("issues", JVal.arr [.obj [("message", .str "x")]])]) none "gpt-5"
      = .ok (.report (.str "—") (.table (.arr [.obj [("message", .str "x")]])) none) :=
  ⟨rfl, rfl,
   response_without_severity_accepted_unchanged _ _ none "gpt-5" rfl rfl
     (by simp)⟩

/-- C2 (modelled from the spec, which has no counterpart in the code):
the local validator always emits the WARNING "zero tax on non-zero
sales." when subtotal is positive and the tax total is zero, and emits
no reconciliation CRITICAL when subtotal 100, tax total 8 and grand
total 108 reconcile exactly (within ε = 0.01). -/
theorem validator_zero_tax_and_reconciliation :
    (∀ (m : Metrics) (rows : List DeptRow), 0 < m.subtotal → m.tax_total = 0 →
      (⟨.WARNING, "zero tax on non-zero sales."⟩ : Finding) ∈ validate m rows) ∧
    (∀ (m : Metrics) (rows : List DeptRow),
      m.subtotal = 100 → m.tax_total = 8 → m.grand_total = 108 →
      (⟨.CRITICAL, "grand total does not reconcile with subtotal + tax."⟩ : Finding)
        ∉ validate m rows) := by
  constructor
  · intro m rows h1 h2
    unfold validate
    have hc : 0 < m.subtotal ∧ m.tax_total = 0 := ⟨h1, h2⟩
    rw [if_pos hc]
    simp [List.mem_append]
  · intro m rows h1 h2 h3 hmem
    unfold validate at hmem
    rw [h1, h2, h3] at hmem
    have habs : ¬ (tolEps < |(100 : ℚ) + 8 - 108|) := by norm_num [tolEps]
    rw [if_neg habs, List.nil_append] at hmem
    rw [List.mem_append, List.mem_append] at hmem
    rcases hmem with (hmem | hmem) | hmem <;>
      [skip; skip; skip] <;>
      · split_ifs at hmem <;> simp_all

theorem validator_zero_tax_and_reconciliation_witness :
    ((0 : ℚ) < 100 ∧
      (⟨.WARNING, "zero tax on non-zero sales."⟩ : Finding)
        ∈ validate ⟨100, 0, 0, 0, 0, 50, [], []⟩ []) ∧
    ((⟨.CRITICAL, "grand total does not reconcile with subtotal + tax."⟩ : Finding)
        ∉ validate ⟨100, 5, 3, 0, 8, 108, [("Cash", 108)], []⟩ []) :=
  ⟨⟨by decide, validator_zero_tax_and_reconciliation.1 ⟨100, 0, 0, 0, 0, 50, [], []⟩ []
      (by decide) rfl⟩,
   validator_zero_tax_and_reconciliation.2 ⟨100, 5, 3, 0, 8, 108, [("Cash", 108)], []⟩ []
     rfl rfl rfl⟩

/-- C9: with no API credential the analysis call returns the single
error record `{"error": "No OPENAI_API_KEY set."}` (and no usage)
instead of raising and without contacting the collaborator — with no
client there is nothing to contact — and the page still presents all
the extracted metrics, payments and department rows of the parse,
unchanged, with the AI section reduced to that one error message. -/
theorem no_credential_degrades_gracefully :
    (∀ (text : List Char) (m : Metrics) (mn : String),
      analyze_with_ai none text m mn
        = (.obj [("error", .str "No OPENAI_API_KEY set.")], none)) ∧
    (∀ (text : List Char) (mn : String) (m : Metrics),
      parse_basic_metrics text = .ok m →
      pipeline none mn true text
        = .ok ⟨m.subtotal, m.tax_total, paySum m.payments, m.grand_total, m.payments,
               List.insertionSort deptGe m.dept_rows,
               some (.errorBox (.str "No OPENAI_API_KEY set."))⟩) := by
  constructor
  · intro text m mn
    rfl
  · intro text mn m h
    unfold pipeline
    rw [h]
    rfl

theorem no_credential_degrades_gracefully_witness :
    parse_basic_metrics "Total 5 Cash: 5.00".toList
      = .ok ⟨0, 0, 0, 0, 0, 5,
          [("Cash", 5), ("AmEx", 0), ("Visa", 0), ("Master", 0), ("Other", 0),
           ("Discover", 0)], []⟩ ∧
    pipeline none "gpt-5-mini" true "Total 5 Cash: 5.00".toList
      = .ok ⟨0, 0,
          paySum [("Cash", 5), ("AmEx", 0), ("Visa", 0), ("Master", 0), ("Other", 0),
                  ("Discover", 0)], 5,
          [("Cash", 5), ("AmEx", 0), ("Visa", 0), ("Master", 0), ("Other", 0),
           ("Discover", 0)], [],
          some (.errorBox (.str "No OPENAI_API_KEY set."))⟩ := by
  constructor
  · decide
  · exact no_credential_degrades_gracefully.2 "Total 5 Cash: 5.00".toList "gpt-5-mini"
      ⟨0, 0, 0, 0, 0, 5,
        [("Cash", 5), ("AmEx", 0), ("Visa", 0), ("Master", 0), ("Other", 0),
         ("Discover", 0)], []⟩ (by decide)

/-- C7: for a metrics record with 50 department rows of pairwise
distinct sales, the request payload's department preview holds exactly
20 rows, each drawn from the input, ordered by descending sales, and
they are the 20 largest: every input row left out has strictly smaller
sales than every row included. -/
theorem dept_preview_top20_descending :
    ∀ (text : List Char) (mn : String) (m : Metrics),
      m.dept_rows.length = 50 →
      m.dept_rows.Pairwise (fun a b => a.sales ≠ b.sales) →
      (buildRequest text m mn).departments_top20.length = 20 ∧
      (buildRequest text m mn).departments_top20.Pairwise deptGe ∧
      (∀ x ∈ (buildRequest text m mn).departments_top20, x ∈ m.dept_rows) ∧
      (∀ y ∈ m.dept_rows, y ∉ (buildRequest text m mn).departments_top20 →
        ∀ x ∈ (buildRequest text m mn).departments_top20, y.sales < x.sales) := by
  intro text mn m hlen hdist
  have hbr : (buildRequest text m mn).departments_top20 = dept_preview m.dept_rows := rfl
  have hne : m.dept_rows.isEmpty = false := by
    cases hrows : m.dept_rows with
    | nil => rw [hrows] at hlen; cases hlen
    | cons a as1 => rfl
  have hdp : dept_preview m.dept_rows = (List.insertionSort deptGe m.dept_rows).take 20 := by
    unfold dept_preview
    rw [hne]
    rfl
  set s := List.insertionSort deptGe m.dept_rows with hs
  have hsp : s.Pairwise deptGe := List.sorted_insertionSort deptGe m.dept_rows
  have hslen : s.length = 50 := by rw [hs, List.length_insertionSort, hlen]
  have hmem : ∀ z, z ∈ s ↔ z ∈ m.dept_rows := fun z => List.mem_insertionSort deptGe
  have htake : ∀ x ∈ s.take 20, x ∈ m.dept_rows := by
    intro x hx
    exact (hmem x).mp (List.take_subset 20 s hx)
  have hcross : ∀ x ∈ s.take 20, ∀ y ∈ s.drop 20, deptGe x y := by
    have hsplit : s.take 20 ++ s.drop 20 = s := List.take_append_drop 20 s
    have := hsp
    rw [← hsplit, List.pairwise_append] at this
    exact this.2.2
  refine ⟨?_, ?_, ?_, ?_⟩
  · rw [hbr, hdp, List.length_take, hslen]
    rfl
  · rw [hbr, hdp]
    exact hsp.sublist (List.take_sublist 20 s)
  · intro x hx
    rw [hbr, hdp] at hx
    exact htake x hx
  · intro y hy hynot x hx
    rw [hbr, hdp] at hynot hx
    have hys : y ∈ s := (hmem y).mpr hy
    have hyd : y ∈ s.drop 20 := by
      rcases (List.mem_append.mp (by rw [List.take_append_drop]; exact hys :
          y ∈ s.take 20 ++ s.drop 20)) with h | h
      · exact absurd h hynot
      · exact h
    have hle : y.sales ≤ x.sales := hcross x hx y hyd
    have hxm : x ∈ m.dept_rows := htake x hx
    have hxy : x ≠ y := by
      intro e
      rw [e] at hx
      exact hynot hx
    have hnexy : x.sales ≠ y.sales := by
      have hsymm : Symmetric (fun a b : DeptRow => a.sales ≠ b.sales) :=
        fun a b hab => hab.symm
      exact List.Pairwise.forall hsymm hdist hxm hy hxy
    exact lt_of_le_of_ne hle (fun e => hnexy (e.symm))

theorem dept_preview_top20_descending_witness :
    (((List.range 50).map
        (fun (i : ℕ) => (⟨"D", 1, (i : ℚ)⟩ : DeptRow))).length = 50) ∧
    ((List.range 50).map
        (fun (i : ℕ) => (⟨"D", 1, (i : ℚ)⟩ : DeptRow))).Pairwise
      (fun a b => a.sales ≠ b.sales) ∧
    (buildRequest [] ⟨0, 0, 0, 0, 0, 0, [],
        (List.range 50).map
          (fun (i : ℕ) => (⟨"D", 1, (i : ℚ)⟩ : DeptRow))⟩
      "gpt-5").departments_top20.length = 20 := by
  have h1 : ((List.range 50).map
      (fun (i : ℕ) => (⟨"D", 1, (i : ℚ)⟩ : DeptRow))).length = 50 := by
    rw [List.length_map, List.length_range]
  have h2 : ((List.range 50).map
      (fun (i : ℕ) => (⟨"D", 1, (i : ℚ)⟩ : DeptRow))).Pairwise
      (fun a b => a.sales ≠ b.sales) := by
    rw [List.pairwise_map]
    refine (List.pairwise_lt_range 50).imp ?_
    intro a b hab
    show ((a : ℚ)) ≠ ((b : ℚ))
    exact_mod_cast Nat.ne_of_lt hab
  exact ⟨h1, h2,
    (dept_preview_top20_descending [] "gpt-5" ⟨0, 0, 0, 0, 0, 0, [],
      (List.range 50).map
        (fun (i : ℕ) => (⟨"D", 1, (i : ℚ)⟩ : DeptRow))⟩ h1 h2).1⟩
